/-
  Verification of the dashmon device health-check scheduler and
  alert-suppression engine (src/worker/worker.js, src/worker/maintenance.js).

  The JavaScript is shallowly embedded: timestamps are Int milliseconds (or
  seconds for the due-set selector, matching the SQL interval arithmetic),
  JS Date values that may be null or unparseable are a three-way inductive,
  database effects and probe outcomes are explicit environments, and thrown
  exceptions are Except values.
-/
import Mathlib

namespace Dashmon

/-- A JS timestamp value as handled by maintenance.js: `nullv` is a falsy
value (null/undefined), `invalid` is a truthy value that parses to NaN,
`time t` is a valid date with epoch-milliseconds `t`. -/
inductive JsDate
  | nullv
  | invalid
  | time (t : Int)
deriving DecidableEq, Repr

/-- maintenance.js `isInWindow(now, start, end)`:
falsy start → false; NaN start → false; falsy or NaN end → `now >= s`;
otherwise `now >= s && now <= e`. -/
def isInWindow (now : Int) (start stop : JsDate) : Bool :=
  match start with
  | .nullv => false
  | .invalid => false
  | .time s =>
    match stop with
    | .nullv => decide (s ≤ now)
    | .invalid => decide (s ≤ now)
    | .time e => decide (s ≤ now) && decide (now ≤ e)

/-- A device row as seen by the worker: the SELECT in `getDueDevices` joins
devices with users (plan, email) and stores (store maintenance window). -/
structure Device where
  id : String
  user_id : String
  store_id : String
  name : String
  ip : String
  url : Option String
  port : Option Nat
  status : Option String
  last_check : Option Int
  ping_interval : Int
  user_email : String
  maintenance_start : JsDate
  maintenance_end : JsDate
  store_maintenance_start : JsDate
  store_maintenance_end : JsDate
deriving DecidableEq, Repr

/-- maintenance.js `isInMaintenance(device, now)`: the store window is
checked first and overrides; otherwise the device's own window decides. -/
def isInMaintenance (d : Device) (now : Int) : Bool :=
  isInWindow now d.store_maintenance_start d.store_maintenance_end ||
  isInWindow now d.maintenance_start d.maintenance_end

/-! ## Probe executors (worker.js `httpCheck`, `tcpCheck`, `pingCheck`,
`executeDeviceCheck`) -/

/-- Diagnostic detail attached to a check result. -/
inductive Detail
  | statusCode (c : Nat)
  | timeoutD
  | errorD (msg : String)
  | pingOk
  | emptyD
deriving DecidableEq, Repr

/-- The normalized result every probe resolves with. -/
structure CheckResult where
  status : String
  latency : Option Int
  packet_loss : Option Nat
  detail : Detail
deriving DecidableEq, Repr

/-- Outcome of the single HTTP request issued by `httpCheck`. -/
inductive HttpEvent
  | response (statusCode : Nat) (ms : Int)
  | timeout (ms : Int)
  | error (msg : String) (ms : Int)
deriving DecidableEq, Repr

/-- Outcome of one TCP connect attempt in `tcpCheck`. -/
inductive TcpEvent
  | connect (ms : Int)
  | timeout (ms : Int)
  | error (msg : String) (ms : Int)
deriving DecidableEq, Repr

/-- Outcome of `pingCheck`: it resolves `{ok:true}` or `{ok:false}`;
`exn` models the promise rejecting (caught by `executeDeviceCheck`). -/
inductive PingEvent
  | ok
  | fail
  | exn
deriving DecidableEq, Repr

/-- worker.js `httpCheck`: a response with truthy statusCode < 500 is up;
timeout and connection error resolve as down with diagnostic detail. -/
def httpCheck : HttpEvent → CheckResult
  | .response c ms =>
    let ok := c ≠ 0 ∧ c < 500
    { status := if ok then "up" else "down", latency := some ms,
      packet_loss := some (if ok then 0 else 100), detail := .statusCode c }
  | .timeout ms =>
    { status := "down", latency := some ms, packet_loss := some 100, detail := .timeoutD }
  | .error msg ms =>
    { status := "down", latency := some ms, packet_loss := some 100, detail := .errorD msg }

/-- worker.js `tcpCheck`: connect is up with empty detail; timeout/error are
down with diagnostic detail. -/
def tcpCheck : TcpEvent → CheckResult
  | .connect ms =>
    { status := "up", latency := some ms, packet_loss := some 0, detail := .emptyD }
  | .timeout ms =>
    { status := "down", latency := some ms, packet_loss := some 100, detail := .timeoutD }
  | .error msg ms =>
    { status := "down", latency := some ms, packet_loss := some 100, detail := .errorD msg }

/-- Environment of probe outcomes for one device check: the HTTP outcome if
a URL request were issued, the ping outcome, and the TCP outcome per port. -/
structure ProbeEnv where
  httpEv : HttpEvent
  pingEv : PingEvent
  tcpEv : Nat → TcpEvent

/-- JS truthiness of an optional string (undefined/null/empty are falsy). -/
def jsTruthyStr : Option String → Bool
  | none => false
  | some v => v ≠ ""

/-- JS truthiness of an optional numeric port (undefined/null/0 are falsy). -/
def portTruthy : Option Nat → Bool
  | none => false
  | some v => v ≠ 0

/-- worker.js `executeDeviceCheck`, instrumented with the list of TCP ports
actually attempted: URL → HTTP probe; else port → TCP probe on that port;
else ping, and on ping failure or exception fall back to TCP 443 then 80. -/
def executeDeviceCheckT (d : Device) (env : ProbeEnv) : CheckResult × List Nat :=
  if jsTruthyStr d.url then (httpCheck env.httpEv, [])
  else if portTruthy d.port then
    (tcpCheck (env.tcpEv (d.port.getD 0)), [d.port.getD 0])
  else
    match env.pingEv with
    | .ok => ({ status := "up", latency := none, packet_loss := some 0, detail := .pingOk }, [])
    | .fail | .exn =>
      let r1 := tcpCheck (env.tcpEv 443)
      if r1.status = "up" then (r1, [443])
      else (tcpCheck (env.tcpEv 80), [443, 80])

/-- The result `executeDeviceCheck` resolves with. -/
def executeDeviceCheck (d : Device) (env : ProbeEnv) : CheckResult :=
  (executeDeviceCheckT d env).1

/-- Is a detail value diagnostic (identifies the failure mode)? -/
def Detail.isDiagnostic : Detail → Bool
  | .statusCode _ => true
  | .timeoutD => true
  | .errorD _ => true
  | .pingOk => false
  | .emptyD => false

/-- A probe result is normal: either up, or down carrying diagnostic detail. -/
def normalResult (r : CheckResult) : Prop :=
  r.status = "up" ∨ (r.status = "down" ∧ r.detail.isDiagnostic = true)

/-- Environment for the full probe semantics, promise rejection included.
`httpEv` is `.error msg` when `lib.get(url, …)` throws synchronously
(ERR_INVALID_URL for a malformed stored URL, or an unsupported protocol) —
a throw inside the promise executor rejects the promise — and `.ok ev`
when a request object is returned and resolves with outcome `ev`. The TCP
path's synchronous throw is not an event: it is determined by the port
value (see `tcpCheckE`). -/
structure ProbeEnvE where
  httpEv : Except String HttpEvent
  pingEv : PingEvent
  tcpEv : Nat → TcpEvent

/-- worker.js `httpCheck` with the rejection path: a synchronous throw from
`lib.get` escapes the executor and rejects the promise; `httpCheck` has no
catch, so the rejection propagates to the caller. -/
def httpCheckE (ev : Except String HttpEvent) : Except String CheckResult :=
  match ev with
  | .error msg => .error msg
  | .ok e => .ok (httpCheck e)

/-- worker.js `tcpCheck` with the rejection path: `socket.connect(port,
host)` throws a synchronous RangeError (ERR_SOCKET_BAD_PORT) for any port
outside 0..65535 — `device.port` is an INT stored unvalidated — rejecting
the promise; an in-range port resolves with the connect outcome. -/
def tcpCheckE (port : Nat) (ev : TcpEvent) : Except String CheckResult :=
  if 65535 < port then .error "RangeError [ERR_SOCKET_BAD_PORT]"
  else .ok (tcpCheck ev)

/-- worker.js `executeDeviceCheck` under the full probe semantics: only the
ping branch sits in a try/catch, so a rejected HTTP or TCP probe promise
propagates out uncaught. The fallback ports 443 and 80 are literals in
range, so the fallback branch can never reject. -/
def executeDeviceCheckE (d : Device) (env : ProbeEnvE) : Except String CheckResult :=
  if jsTruthyStr d.url then httpCheckE env.httpEv
  else if portTruthy d.port then tcpCheckE (d.port.getD 0) (env.tcpEv (d.port.getD 0))
  else
    match env.pingEv with
    | .ok => .ok { status := "up", latency := none, packet_loss := some 0, detail := .pingOk }
    | .fail | .exn =>
      match tcpCheckE 443 (env.tcpEv 443) with
      | .error e => .error e
      | .ok r1 =>
        if r1.status = "up" then .ok r1 else tcpCheckE 80 (env.tcpEv 80)

/-! ## Alert cooldown ledger (worker.js `updateAlertEvent`,
`getLastAlertSent`, over the `alert_events` table with its UNIQUE
(user_id, device_id, event_type) constraint) -/

/-- The ledger key: (tenant, device, event-type). -/
structure AlertKey where
  user_id : String
  device_id : String
  event_type : String
deriving DecidableEq, Repr

/-- The `alert_events` table: rows of (key, last_sent). -/
abbrev Ledger := List (AlertKey × Int)

/-- The rows of the ledger holding the given key. -/
def rowsFor (L : Ledger) (k : AlertKey) : List (AlertKey × Int) :=
  L.filter (fun r => r.1 = k)

/-- worker.js `updateAlertEvent`: the INSERT ... ON CONFLICT upsert — if a
row with the key exists it is updated to the new `last_sent`, otherwise a
fresh row is inserted. -/
def updateAlertEvent (L : Ledger) (k : AlertKey) (now : Int) : Ledger :=
  if L.any (fun r => r.1 = k) then
    L.map (fun r => if r.1 = k then (k, now) else r)
  else L ++ [(k, now)]

/-- worker.js `getLastAlertSent`: SELECT last_sent ... ORDER BY last_sent
DESC LIMIT 1, i.e. the greatest recorded timestamp for the key, or null. -/
def getLastAlertSent (L : Ledger) (k : AlertKey) : Option Int :=
  match (rowsFor L k).map Prod.snd with
  | [] => none
  | t :: ts => some (ts.foldl max t)

/-! ## Notification dispatcher (worker.js `maybeSendEmailAlert`,
`shouldSendEmail`) -/

/-- The `rules.to` field of an alert-config row: absent (or rules missing),
present but not an array, or an array of addresses. -/
inductive JsArr
  | absent
  | notArray
  | arr (xs : List String)
deriving DecidableEq, Repr

/-- An enabled email alert-config row as returned by `shouldSendEmail`
(the SELECT filters on type='email' AND enabled=true). -/
structure AlertCfg where
  rules_to : JsArr
  cooldown_minutes : Option Nat
deriving DecidableEq, Repr

/-- The expression `cfg.cooldown_minutes || 30`: JS falsy (absent or 0) falls back to 30. -/
def cooldownOr30 : Option Nat → Nat
  | none => 30
  | some m => if m = 0 then 30 else m

/-- Recipient resolution: `Array.isArray(rules.to) && rules.to.length ?
rules.to : [device.user_email]`. -/
def recipientsFor (cfg : AlertCfg) (d : Device) : List String :=
  match cfg.rules_to with
  | .arr xs => if xs.length ≠ 0 then xs else [d.user_email]
  | _ => [d.user_email]

/-- Environment of the dispatcher: the tenant's enabled email config (none
when `shouldSendEmail` finds no row), the current ledger, the clock, the
SMTP environment variables, and whether the transport send succeeds. -/
structure DispatchEnv where
  cfg : Option AlertCfg
  ledger : Ledger
  now : Int
  smtpHost : Option String
  smtpUser : Option String
  smtpPass : Option String
  smtpFrom : Option String
  mailOk : Bool

/-- The effective From address: `process.env.SMTP_FROM || user`. -/
def smtpFromEff (env : DispatchEnv) : Option String :=
  if jsTruthyStr env.smtpFrom then env.smtpFrom else env.smtpUser

/-- Whether `!host || !user || !pass || !from` is false, i.e. SMTP is configured. -/
def smtpConfigured (env : DispatchEnv) : Bool :=
  jsTruthyStr env.smtpHost && jsTruthyStr env.smtpUser &&
  jsTruthyStr env.smtpPass && jsTruthyStr (smtpFromEff env)

/-- How one `maybeSendEmailAlert` invocation ended. -/
inductive AlertOutcome
  | suppressedMaintenance
  | noConfig
  | cooldownBlocked
  | steadyState
  | smtpNotConfigured
  | sent (recipients : List String) (eventType : String)
  | sendFailed (recipients : List String) (eventType : String)
deriving DecidableEq, Repr

/-- Did the invocation attempt an email delivery (call sendMail)? -/
def attemptsEmail : AlertOutcome → Bool
  | .sent _ _ => true
  | .sendFailed _ _ => true
  | _ => false

/-- The recipients of an attempted delivery, if one was attempted. -/
def attemptedRecipients : AlertOutcome → Option (List String)
  | .sent r _ => some r
  | .sendFailed r _ => some r
  | _ => none

/-- worker.js `maybeSendEmailAlert(device, prevStatus, newStatus)`, in
source order: maintenance suppression; enabled-config lookup; recipient
resolution; cooldown gate on the (tenant, device, event-type) key; the
change-only gate `prevStatus && prevStatus === newStatus`; the SMTP
configuration gate; then the send, recording the ledger entry only when the
transport succeeds. Returns the outcome and the resulting ledger. -/
def maybeSendEmailAlert (d : Device) (prevStatus : Option String) (newStatus : String)
    (env : DispatchEnv) : AlertOutcome × Ledger :=
  if isInMaintenance d env.now then (.suppressedMaintenance, env.ledger)
  else
    match env.cfg with
    | none => (.noConfig, env.ledger)
    | some cfg =>
      let recipients := recipientsFor cfg d
      let eventType := if newStatus = "down" then "email_down" else "email_up"
      let key : AlertKey := ⟨d.user_id, d.id, eventType⟩
      let blocked :=
        match getLastAlertSent env.ledger key with
        | some t => decide (env.now - t < (cooldownOr30 cfg.cooldown_minutes : Int) * 60 * 1000)
        | none => false
      if blocked then (.cooldownBlocked, env.ledger)
      else if (match prevStatus with
               | some p => decide (p ≠ "") && decide (p = newStatus)
               | none => false) then (.steadyState, env.ledger)
      else if ¬ smtpConfigured env then (.smtpNotConfigured, env.ledger)
      else if env.mailOk then (.sent recipients eventType, updateAlertEvent env.ledger key env.now)
      else (.sendFailed recipients eventType, env.ledger)

/-- A concrete device with no URL, no port and no maintenance window, used
as witness input. -/
def sampleDevice : Device :=
  { id := "d1", user_id := "u1", store_id := "s1", name := "sw", ip := "10.0.0.2",
    url := none, port := none, status := some "up", last_check := none,
    ping_interval := 60, user_email := "owner@example.com",
    maintenance_start := .nullv, maintenance_end := .nullv,
    store_maintenance_start := .nullv, store_maintenance_end := .nullv }

/-- The sample device placed inside an open-ended active store window. -/
def sampleMaintDevice : Device :=
  { sampleDevice with store_maintenance_start := .time (-10) }

/-- The spec scenario device: its own maintenance window started an hour
ago (t = -3600000 ms) and has no end; no store window. -/
def openEndedDevice : Device :=
  { sampleDevice with maintenance_start := .time (-3600000) }

/-- A device whose stored port is out of range — storable, since the API
saves `port` into an INT column without a range check. -/
def badPortDevice : Device := { sampleDevice with port := some 70000 }

/-- A device whose stored URL is malformed (also saved unvalidated). -/
def badUrlDevice : Device := { sampleDevice with url := some "htp://oops" }

/-- A full-semantics probe environment where every attempted probe resolves:
a parseable URL timing out, ping rejecting, TCP connects refused. -/
def probeEnvE0 : ProbeEnvE :=
  { httpEv := .ok (.timeout 3), pingEv := .exn, tcpEv := fun _ => .error "refused" 4 }

/-- A full-semantics probe environment where `lib.get` throws synchronously
on the malformed URL. -/
def probeEnvEBadUrl : ProbeEnvE :=
  { httpEv := .error "Invalid URL [ERR_INVALID_URL]", pingEv := .ok,
    tcpEv := fun _ => .connect 1 }

/-- A dispatch environment with SMTP fully configured and a working
transport. -/
def mkEnv (cfg : Option AlertCfg) (led : Ledger) (now : Int) : DispatchEnv :=
  { cfg := cfg, ledger := led, now := now, smtpHost := some "smtp",
    smtpUser := some "u", smtpPass := some "p", smtpFrom := some "f", mailOk := true }

/-- An enabled config with an explicit recipient list. -/
def cfgList : AlertCfg := { rules_to := .arr ["a@example.com"], cooldown_minutes := some 30 }

/-- An enabled config whose rules hold an empty recipient array. -/
def cfgEmpty : AlertCfg := { rules_to := .arr [], cooldown_minutes := some 30 }

/-! ## Due-set selector (worker.js `getDueDevices`) -/

/-- The key `COALESCE(d.last_check, to_timestamp(0))`: the effective last check,
null mapped to the epoch. -/
def effLastCheck (d : Device) : Int :=
  d.last_check.getD 0

/-- The ORDER BY key comparison: ascending effective last check. -/
def dueLe (a b : Device) : Prop :=
  effLastCheck a ≤ effLastCheck b

instance : DecidableRel dueLe :=
  fun a b => inferInstanceAs (Decidable (effLastCheck a ≤ effLastCheck b))

instance : IsTotal Device dueLe :=
  ⟨fun a b => le_total (effLastCheck a) (effLastCheck b)⟩

instance : IsTrans Device dueLe :=
  ⟨fun _ _ _ h1 h2 => le_trans h1 h2⟩

/-- The WHERE clause: `last_check IS NULL OR last_check <= now - interval`
(interval in seconds; this module's clock is Int seconds). -/
def isDue (now : Int) (d : Device) : Bool :=
  match d.last_check with
  | none => true
  | some lc => decide (lc ≤ now - d.ping_interval)

/-- worker.js `getDueDevices` over a device table snapshot: filter the due
rows, order ascending by effective last check, truncate at LIMIT 100. The
function only reads `devices`; it returns a selection and modifies
nothing. -/
def getDueDevices (devices : List Device) (now : Int) : List Device :=
  (((devices.filter (isDue now)).insertionSort dueLe).take 100)

/-- A never-checked device (due immediately, effective last check epoch). -/
def deviceA : Device := { sampleDevice with id := "A", last_check := none }

/-- A device checked at t = 3600 with a 30-minute interval. -/
def deviceB : Device :=
  { sampleDevice with id := "B", last_check := some 3600, ping_interval := 1800 }

/-! ## Scheduler loop (worker.js `tick` and `main`) -/

/-- An observable step of one tick. `persist` is a successful
`updateDevice` (the write that advances `last_check`); `alert` is an
invocation of the notification dispatcher. -/
inductive Action
  | fetchDue
  | probe (id : String)
  | persist (id : String)
  | persistFail (id : String)
  | history (id : String)
  | historyFail (id : String)
  | alert (id : String)
deriving DecidableEq, Repr

/-- Environment of one tick: the due set the SELECT returns, the probe
outcomes per device, and whether each device's `updateDevice` /
`writeHistory` store writes succeed or throw. -/
structure TickEnv where
  due : List Device
  probeEnv : Device → ProbeEnv
  updateOk : String → Except String Unit
  historyOk : String → Except String Unit

/-- The per-device loop body of worker.js `tick`: probe, persist the new
status (abandoning the whole loop if the write throws, as there is no
per-device catch), append history, and dispatch an alert only when the
status changed (`newStatus !== prevStatus`, null previous status counts as
changed). Returns the actions performed in order and the first uncaught
exception, if any. -/
def tickLoop (env : TickEnv) : List Device → List Action × Option String
  | [] => ([], none)
  | d :: rest =>
    let r := executeDeviceCheck d (env.probeEnv d)
    let newStatus := if r.status = "" then "down" else r.status
    match env.updateOk d.id with
    | .error e => ([.probe d.id, .persistFail d.id], some e)
    | .ok _ =>
      match env.historyOk d.id with
      | .error e => ([.probe d.id, .persist d.id, .historyFail d.id], some e)
      | .ok _ =>
        let alertActs := if (match d.status with
                             | some s => decide (newStatus = s)
                             | none => false) then [] else [Action.alert d.id]
        let next := tickLoop env rest
        (.probe d.id :: .persist d.id :: .history d.id :: (alertActs ++ next.1), next.2)

/-- worker.js `tick`: fetch the due set; if empty return, else run the
sequential device loop. -/
def tick (env : TickEnv) : List Action × Option String :=
  if env.due.isEmpty then ([.fetchDue], none)
  else (.fetchDue :: (tickLoop env env.due).1, (tickLoop env env.due).2)

/-- An observable step of one `main` loop iteration. -/
inductive IterAction
  | retention
  | retentionFail
  | tickAct (a : Action)
deriving DecidableEq, Repr

/-- Environment of one `main` loop iteration: whether `retentionCleanup`
throws, and the tick's environment. -/
structure IterEnv where
  retain : Except String Unit
  tickEnv : TickEnv

/-- One iteration of worker.js `main`: `try { await retentionCleanup();
await tick(); } catch (e) { log }` — a single catch wraps both calls. The
returned flag records whether the catch fired (the error was logged). -/
def mainIter (env : IterEnv) : List IterAction × Bool :=
  match env.retain with
  | .error _ => ([.retentionFail], true)
  | .ok _ =>
    let t := tick env.tickEnv
    (.retention :: t.1.map .tickAct, t.2.isSome)

/-- The `while (true)` loop of `main`, over a stream of per-iteration
environments: every iteration runs regardless of earlier failures. -/
def mainRun : List IterEnv → List (List IterAction × Bool)
  | [] => []
  | env :: rest => mainIter env :: mainRun rest

/-- A probe environment where ping succeeds. -/
def probeEnvOk : ProbeEnv :=
  { httpEv := .response 200 5, pingEv := .ok, tcpEv := fun _ => .connect 5 }

/-- Iteration environment: retention pruning throws, one due device. -/
def iterEnvRetentionFail : IterEnv :=
  { retain := .error "db down",
    tickEnv := { due := [sampleDevice], probeEnv := fun _ => probeEnvOk,
                 updateOk := fun _ => .ok (), historyOk := fun _ => .ok () } }

/-- Device P, whose persistence write will throw. -/
def deviceP : Device := { sampleDevice with id := "P" }

/-- Device Q, due in the same batch after P. -/
def deviceQ : Device := { sampleDevice with id := "Q" }

/-- Tick environment: two due devices, the store throwing on P's update. -/
def tickEnvPersistFail : TickEnv :=
  { due := [deviceP, deviceQ], probeEnv := fun _ => probeEnvOk,
    updateOk := fun i => if i = "P" then .error "store down" else .ok (),
    historyOk := fun _ => .ok () }

theorem isInWindow_future_start (now s : Int) (e : JsDate) (h : now < s) :
    isInWindow now (.time s) e = false := by
  cases e <;> simp [isInWindow] <;> omega

theorem isInWindow_open_end (now s : Int) (h : s ≤ now) :
    isInWindow now (.time s) .nullv = true ∧
    isInWindow now (.time s) .invalid = true := by
  simp [isInWindow, h]

theorem isInWindow_past_end (now s e : Int) (h : e < now) :
    isInWindow now (.time s) (.time e) = false := by
  simp [isInWindow]
  omega

/-- C7 counterexample helper facts stated below; the evaluator over a
valid end is active exactly on the closed interval. -/
theorem isInWindow_closed (now s e : Int) :
    isInWindow now (.time s) (.time e) = (decide (s ≤ now) && decide (now ≤ e)) := rfl

theorem httpCheck_normal (ev : HttpEvent) : normalResult (httpCheck ev) := by
  cases ev with
  | response c ms =>
    by_cases h : c ≠ 0 ∧ c < 500 <;> simp [httpCheck, normalResult, Detail.isDiagnostic, h]
  | timeout ms => simp [httpCheck, normalResult, Detail.isDiagnostic]
  | error msg ms => simp [httpCheck, normalResult, Detail.isDiagnostic]

theorem tcpCheck_normal (ev : TcpEvent) : normalResult (tcpCheck ev) := by
  cases ev <;> simp [tcpCheck, normalResult, Detail.isDiagnostic]

/-- C5: for a device with no URL and no port whose ping probe fails (or
throws), the executor falls back to TCP 443 first; if TCP:443 succeeds the
result is that probe's outcome (status up with its latency) and port 80 is
not attempted; only if TCP:443 fails is TCP:80 attempted, and then its
result — whatever it is — is returned. -/
theorem executeDeviceCheck_fallback_order (d : Device) (env : ProbeEnv)
    (hurl : jsTruthyStr d.url = false) (hport : portTruthy d.port = false)
    (hping : env.pingEv ≠ .ok) :
    ((tcpCheck (env.tcpEv 443)).status = "up" →
      executeDeviceCheckT d env = (tcpCheck (env.tcpEv 443), [443]) ∧
      (∀ ms, env.tcpEv 443 = .connect ms →
        (executeDeviceCheck d env).status = "up" ∧
        (executeDeviceCheck d env).latency = some ms)) ∧
    ((tcpCheck (env.tcpEv 443)).status ≠ "up" →
      executeDeviceCheckT d env = (tcpCheck (env.tcpEv 80), [443, 80])) := by
  have hbranch : ∀ res : CheckResult × List Nat,
      (match env.pingEv with
        | .ok => ({ status := "up", latency := none, packet_loss := some 0,
                    detail := .pingOk }, [])
        | .fail | .exn => res) = res := by
    intro res
    cases hp : env.pingEv with
    | ok => exact absurd hp hping
    | fail => rfl
    | exn => rfl
  constructor
  · intro hup
    have hexec : executeDeviceCheckT d env = (tcpCheck (env.tcpEv 443), [443]) := by
      simp only [executeDeviceCheckT, hurl, hport, Bool.false_eq_true, if_false]
      rw [hbranch]
      simp [hup]
    refine ⟨hexec, ?_⟩
    intro ms hconn
    simp [executeDeviceCheck, hexec, hconn, tcpCheck]
  · intro hdown
    simp only [executeDeviceCheckT, hurl, hport, Bool.false_eq_true, if_false]
    rw [hbranch]
    simp [hdown]

/-- C5 witness: a concrete device with no URL and no port, ping failing,
TCP:443 connecting in 12 ms. -/
theorem executeDeviceCheck_fallback_order_witness :
    ∃ d env, jsTruthyStr (Device.url d) = false ∧ portTruthy (Device.port d) = false ∧
      ProbeEnv.pingEv env ≠ .ok ∧
      executeDeviceCheckT d env = (tcpCheck (ProbeEnv.tcpEv env 443), [443]) := by
  refine ⟨{ id := "d1", user_id := "u1", store_id := "s1", name := "router", ip := "10.0.0.1",
            url := none, port := none, status := some "up", last_check := none,
            ping_interval := 60, user_email := "o@example.com",
            maintenance_start := .nullv, maintenance_end := .nullv,
            store_maintenance_start := .nullv, store_maintenance_end := .nullv },
          { httpEv := .timeout 0, pingEv := .fail, tcpEv := fun _ => .connect 12 }, ?_, ?_, ?_, ?_⟩
  · rfl
  · rfl
  · simp
  · exact ((executeDeviceCheck_fallback_order _ _ (by decide) (by decide) (by simp)).1
      (by decide)).1

/-- C9 counterexample: an out-of-range stored port (70000) makes
`socket.connect` throw a synchronous RangeError, rejecting the probe
promise with no catch on that branch — the exception propagates past the
probe-executor boundary instead of yielding a down result; likewise a
malformed stored URL makes `lib.get` throw ERR_INVALID_URL, which
propagates the same way. Both configurations are storable: the API writes
`url` and `port` unvalidated. -/
theorem executeDeviceCheckE_sync_throw :
    executeDeviceCheckE badPortDevice probeEnvE0 =
      .error "RangeError [ERR_SOCKET_BAD_PORT]" ∧
    executeDeviceCheckE badUrlDevice probeEnvEBadUrl =
      .error "Invalid URL [ERR_INVALID_URL]" :=
  ⟨rfl, rfl⟩

/-- C9 amended: the device check never propagates an exception — every
probe outcome, the ping exception included, resolves to a normal result
(up, or down with diagnostic detail) — provided the stored configuration is
probe-well-formed: when a URL is set, `lib.get` accepts it (no synchronous
throw), and when a port is set, it is within 0..65535. On the reachability
branch (no URL, no port) this holds unconditionally, since the fallback
ports 443 and 80 are in-range literals and the ping branch is wrapped in
try/catch. A malformed stored URL or out-of-range stored port, however,
rejects the probe promise and the exception escapes to the worker loop. -/
theorem executeDeviceCheckE_normal (d : Device) (env : ProbeEnvE)
    (hurl : jsTruthyStr d.url = true → ∃ ev, env.httpEv = .ok ev)
    (hport : portTruthy d.port = true → d.port.getD 0 ≤ 65535) :
    ∃ r, executeDeviceCheckE d env = .ok r ∧ normalResult r := by
  unfold executeDeviceCheckE
  by_cases hu : jsTruthyStr d.url
  · obtain ⟨ev, hev⟩ := hurl hu
    exact ⟨httpCheck ev, by simp [hu, httpCheckE, hev], httpCheck_normal ev⟩
  · by_cases hp : portTruthy d.port
    · have hle : ¬ 65535 < d.port.getD 0 := by
        have := hport hp
        omega
      exact ⟨tcpCheck (env.tcpEv (d.port.getD 0)),
        by simp [hu, hp, tcpCheckE, hle],
        tcpCheck_normal (env.tcpEv (d.port.getD 0))⟩
    · have h443 : tcpCheckE 443 (env.tcpEv 443) = .ok (tcpCheck (env.tcpEv 443)) := by
        simp [tcpCheckE]
      have h80 : tcpCheckE 80 (env.tcpEv 80) = .ok (tcpCheck (env.tcpEv 80)) := by
        simp [tcpCheckE]
      cases hping : env.pingEv with
      | ok =>
        exact ⟨{ status := "up", latency := none, packet_loss := some 0, detail := .pingOk },
          by simp [hu, hp, hping], Or.inl rfl⟩
      | fail =>
        simp only [hu, hp, Bool.false_eq_true, if_false, hping, h443]
        by_cases hup : (tcpCheck (env.tcpEv 443)).status = "up"
        · exact ⟨tcpCheck (env.tcpEv 443), by simp [hup], tcpCheck_normal (env.tcpEv 443)⟩
        · exact ⟨tcpCheck (env.tcpEv 80), by simp [hup, h80], tcpCheck_normal (env.tcpEv 80)⟩
      | exn =>
        simp only [hu, hp, Bool.false_eq_true, if_false, hping, h443]
        by_cases hup : (tcpCheck (env.tcpEv 443)).status = "up"
        · exact ⟨tcpCheck (env.tcpEv 443), by simp [hup], tcpCheck_normal (env.tcpEv 443)⟩
        · exact ⟨tcpCheck (env.tcpEv 80), by simp [hup, h80], tcpCheck_normal (env.tcpEv 80)⟩

theorem filter_upsert_same (L : Ledger) (k : AlertKey) (now : Int) :
    (L.map (fun r => if r.1 = k then (k, now) else r)).filter (fun r => r.1 = k) =
      (L.filter (fun r => r.1 = k)).map (fun _ => (k, now)) := by
  induction L with
  | nil => rfl
  | cons a L ih =>
    by_cases ha : a.1 = k <;> simp [ha, ih]

theorem filter_upsert_other (L : Ledger) (k k' : AlertKey) (now : Int) (hne : k' ≠ k) :
    (L.map (fun r => if r.1 = k then (k, now) else r)).filter (fun r => r.1 = k') =
      L.filter (fun r => r.1 = k') := by
  induction L with
  | nil => rfl
  | cons a L ih =>
    by_cases hak : a.1 = k
    · simp [hak, Ne.symm hne, ih]
    · by_cases ha : a.1 = k' <;>
        (simp only [List.map_cons, if_neg hak]; simp [List.filter_cons, ha, ih])

theorem rowsFor_not_found (L : Ledger) (k : AlertKey)
    (h : L.any (fun r => r.1 = k) = false) : rowsFor L k = [] := by
  unfold rowsFor
  rw [List.filter_eq_nil_iff]
  intro r hr
  simp only [decide_eq_true_eq]
  intro hrk
  have hc : L.any (fun r => r.1 = k) = true :=
    List.any_eq_true.mpr ⟨r, hr, by simpa using hrk⟩
  rw [h] at hc
  cases hc

theorem rowsFor_upsert_same (L : Ledger) (k : AlertKey) (now : Int) :
    rowsFor (updateAlertEvent L k now) k =
      if L.any (fun r => r.1 = k) then (rowsFor L k).map (fun _ => (k, now))
      else rowsFor L k ++ [(k, now)] := by
  unfold updateAlertEvent rowsFor
  by_cases h : L.any (fun r => r.1 = k)
  · simp only [h, if_true]
    exact filter_upsert_same L k now
  · simp only [h, if_false]
    simp [List.filter_append]

theorem rowsFor_upsert_other (L : Ledger) (k k' : AlertKey) (now : Int) (hne : k' ≠ k) :
    rowsFor (updateAlertEvent L k now) k' = rowsFor L k' := by
  unfold updateAlertEvent rowsFor
  by_cases h : L.any (fun r => r.1 = k)
  · simp only [h, if_true]
    exact filter_upsert_other L k k' now hne
  · simp only [h, if_false]
    simp [List.filter_append, Ne.symm hne]

theorem rowsFor_upsert_found (L : Ledger) (k : AlertKey) (now : Int)
    (hinv : (rowsFor L k).length ≤ 1) :
    rowsFor (updateAlertEvent L k now) k = [(k, now)] := by
  rw [rowsFor_upsert_same]
  by_cases h : L.any (fun r => r.1 = k)
  · simp only [h, if_true]
    have hge : 1 ≤ (rowsFor L k).length := by
      simp only [List.any_eq_true, decide_eq_true_eq] at h
      obtain ⟨r, hr, hrk⟩ := h
      have hmem : r ∈ rowsFor L k := by
        unfold rowsFor
        rw [List.mem_filter]
        exact ⟨hr, by simpa using hrk⟩
      exact List.length_pos.mpr (List.ne_nil_of_mem hmem)
    have hlen : (rowsFor L k).length = 1 := Nat.le_antisymm hinv hge
    obtain ⟨r, hr⟩ := List.length_eq_one.mp hlen
    simp [hr]
  · simp only [h, if_false]
    simp [rowsFor_not_found L k (by rwa [Bool.not_eq_true] at h)]

theorem length_rowsFor_upsert (L : Ledger) (k k' : AlertKey) (now : Int)
    (hinv : (rowsFor L k').length ≤ 1) :
    (rowsFor (updateAlertEvent L k now) k').length ≤ 1 := by
  by_cases hk : k' = k
  · subst hk
    rw [rowsFor_upsert_found L k' now hinv]
    simp
  · rw [rowsFor_upsert_other L k k' now hk]
    exact hinv

/-- C6: starting from any ledger satisfying the at-most-one-row-per-key
invariant, recording a send twice for the same key (timestamps t1 then t2,
t1 ≤ t2) leaves exactly one row for that key, and the recorded last-sent
timestamp is t2, the later write; moreover a single `updateAlertEvent` call
for any key preserves the invariant for every key. -/
theorem updateAlertEvent_idempotent_upsert (L : Ledger) (k : AlertKey) (t1 t2 : Int)
    (hinv : ∀ k', (rowsFor L k').length ≤ 1) (hle : t1 ≤ t2) :
    (rowsFor (updateAlertEvent (updateAlertEvent L k t1) k t2) k).length = 1 ∧
    getLastAlertSent (updateAlertEvent (updateAlertEvent L k t1) k t2) k = some (max t1 t2) ∧
    (∀ k' t k'', (rowsFor (updateAlertEvent L k' t) k'').length ≤ 1) := by
  have hone : rowsFor (updateAlertEvent L k t1) k = [(k, t1)] :=
    rowsFor_upsert_found L k t1 (hinv k)
  have htwo : rowsFor (updateAlertEvent (updateAlertEvent L k t1) k t2) k = [(k, t2)] :=
    rowsFor_upsert_found (updateAlertEvent L k t1) k t2 (by simp [hone])
  refine ⟨by simp [htwo], ?_, ?_⟩
  · unfold getLastAlertSent
    rw [htwo]
    simp [max_eq_right hle]
  · intro k' t k''
    exact length_rowsFor_upsert L k' k'' t (hinv k'')

/-- C6 witness: recording twice on an empty ledger for one concrete key at
timestamps 5 then 9 leaves exactly one row, with last_sent 9. -/
theorem updateAlertEvent_idempotent_upsert_witness :
    (rowsFor (updateAlertEvent (updateAlertEvent [] ⟨"u1", "d1", "email_down"⟩ 5)
        ⟨"u1", "d1", "email_down"⟩ 9) ⟨"u1", "d1", "email_down"⟩).length = 1 ∧
    getLastAlertSent (updateAlertEvent (updateAlertEvent [] ⟨"u1", "d1", "email_down"⟩ 5)
        ⟨"u1", "d1", "email_down"⟩ 9) ⟨"u1", "d1", "email_down"⟩ = some (max 5 9) :=
  ⟨(updateAlertEvent_idempotent_upsert [] ⟨"u1", "d1", "email_down"⟩ 5 9
      (fun k' => by simp [rowsFor]) (by decide)).1,
   (updateAlertEvent_idempotent_upsert [] ⟨"u1", "d1", "email_down"⟩ 5 9
      (fun k' => by simp [rowsFor]) (by decide)).2.1⟩

/-- C1: for a device inside an active maintenance window at dispatch time,
the notification path for any status transition writes nothing to the
alert-events ledger and attempts no email delivery, whatever the cooldown
state, config, or SMTP environment. -/
theorem maybeSendEmailAlert_maintenance_silences (d : Device) (prevStatus : Option String)
    (newStatus : String) (env : DispatchEnv) (h : isInMaintenance d env.now = true) :
    (maybeSendEmailAlert d prevStatus newStatus env).2 = env.ledger ∧
    attemptsEmail (maybeSendEmailAlert d prevStatus newStatus env).1 = false := by
  simp [maybeSendEmailAlert, h, attemptsEmail]

/-- C1 witness: a device whose store window is open and active at now = 0
produces no ledger write and no delivery attempt even with an enabled
config and SMTP fully configured. -/
theorem maybeSendEmailAlert_maintenance_silences_witness :
    (maybeSendEmailAlert sampleMaintDevice (some "up") "down"
        (mkEnv (some cfgList) [] 0)).2 = [] ∧
    attemptsEmail (maybeSendEmailAlert sampleMaintDevice (some "up") "down"
        (mkEnv (some cfgList) [] 0)).1 = false :=
  maybeSendEmailAlert_maintenance_silences sampleMaintDevice (some "up") "down"
    (mkEnv (some cfgList) [] 0) (by decide)

/-- C2: with an enabled config whose configured cooldown is C ≥ 1 minutes
(the server accepts only 1..10080), no active maintenance window, a
recorded last-sent T for the transition's key, a genuine transition and a
configured SMTP transport: at any `now` strictly before T + C minutes the
dispatcher attempts no delivery and leaves the ledger untouched, and at any
`now` at or past T + C minutes it does attempt delivery. -/
theorem maybeSendEmailAlert_cooldown_gating (d : Device) (p newStatus : String)
    (env : DispatchEnv) (cfg : AlertCfg) (C : Nat) (T : Int)
    (hm : isInMaintenance d env.now = false)
    (hc : env.cfg = some cfg)
    (hcd : cfg.cooldown_minutes = some C) (hC : 1 ≤ C)
    (hT : getLastAlertSent env.ledger
        ⟨d.user_id, d.id, if newStatus = "down" then "email_down" else "email_up"⟩ = some T)
    (hpn : p ≠ newStatus)
    (hsmtp : smtpConfigured env = true) :
    (env.now < T + (C : Int) * 60 * 1000 →
      attemptsEmail (maybeSendEmailAlert d (some p) newStatus env).1 = false ∧
      (maybeSendEmailAlert d (some p) newStatus env).2 = env.ledger) ∧
    (T + (C : Int) * 60 * 1000 ≤ env.now →
      attemptsEmail (maybeSendEmailAlert d (some p) newStatus env).1 = true) := by
  have hcool : cooldownOr30 cfg.cooldown_minutes = C := by
    rw [hcd]
    unfold cooldownOr30
    simp [Nat.one_le_iff_ne_zero.mp hC]
  have hp : decide (p = newStatus) = false := by
    rw [decide_eq_false_iff_not]
    exact hpn
  unfold maybeSendEmailAlert
  rw [hm]
  simp only [Bool.false_eq_true, if_false, hc, hT, hcool]
  constructor
  · intro h
    have hb : decide (env.now - T < (C : Int) * 60 * 1000) = true := by
      rw [decide_eq_true_eq]
      omega
    simp [hb, attemptsEmail]
  · intro h
    have hb : decide (env.now - T < (C : Int) * 60 * 1000) = false := by
      rw [decide_eq_false_iff_not]
      omega
    by_cases hmail : env.mailOk <;> simp [hb, hp, hsmtp, hmail, attemptsEmail]

/-- C2 witness: cooldown 30 minutes, last sent at 0, transition up→down at
now = 31 minutes — delivery is attempted (the before-cooldown implication is
vacuous at this clock). -/
theorem maybeSendEmailAlert_cooldown_gating_witness :
    ((1860000 : Int) < 0 + (30 : Nat) * 60 * 1000 →
      attemptsEmail (maybeSendEmailAlert sampleDevice (some "up") "down"
        (mkEnv (some cfgList) [(⟨"u1", "d1", "email_down"⟩, 0)] 1860000)).1 = false ∧
      (maybeSendEmailAlert sampleDevice (some "up") "down"
        (mkEnv (some cfgList) [(⟨"u1", "d1", "email_down"⟩, 0)] 1860000)).2 =
        [(⟨"u1", "d1", "email_down"⟩, 0)]) ∧
    (0 + (30 : Nat) * 60 * 1000 ≤ (1860000 : Int) →
      attemptsEmail (maybeSendEmailAlert sampleDevice (some "up") "down"
        (mkEnv (some cfgList) [(⟨"u1", "d1", "email_down"⟩, 0)] 1860000)).1 = true) :=
  maybeSendEmailAlert_cooldown_gating sampleDevice "up" "down"
    (mkEnv (some cfgList) [(⟨"u1", "d1", "email_down"⟩, 0)] 1860000) cfgList 30 0
    (by decide) rfl rfl (by decide) (by decide) (by decide) (by decide)

/-- C10: with an enabled email config whose rules hold no usable recipient
list (`to` absent, not an array, or an empty array), the dispatcher does not
skip the alert — on an otherwise eligible transition it attempts delivery
with the device owner's account email as the sole recipient. -/
theorem maybeSendEmailAlert_recipient_fallback (d : Device) (p newStatus : String)
    (env : DispatchEnv) (cfg : AlertCfg)
    (hm : isInMaintenance d env.now = false)
    (hc : env.cfg = some cfg)
    (hto : cfg.rules_to = .absent ∨ cfg.rules_to = .notArray ∨ cfg.rules_to = .arr [])
    (hlast : getLastAlertSent env.ledger
        ⟨d.user_id, d.id, if newStatus = "down" then "email_down" else "email_up"⟩ = none)
    (hpn : p ≠ newStatus)
    (hsmtp : smtpConfigured env = true) :
    recipientsFor cfg d = [d.user_email] ∧
    attemptedRecipients (maybeSendEmailAlert d (some p) newStatus env).1 =
      some [d.user_email] := by
  have hrec : recipientsFor cfg d = [d.user_email] := by
    rcases hto with h | h | h <;> simp [recipientsFor, h]
  have hp : decide (p = newStatus) = false := by
    rw [decide_eq_false_iff_not]
    exact hpn
  refine ⟨hrec, ?_⟩
  unfold maybeSendEmailAlert
  rw [hm]
  simp only [Bool.false_eq_true, if_false, hc, hlast, hrec]
  by_cases hmail : env.mailOk <;> simp [hp, hsmtp, hmail, attemptedRecipients]

/-- C10 witness: an enabled config with `rules.to = []` — the attempt goes
to the owner's account email. -/
theorem maybeSendEmailAlert_recipient_fallback_witness :
    recipientsFor cfgEmpty sampleDevice = ["owner@example.com"] ∧
    attemptedRecipients (maybeSendEmailAlert sampleDevice (some "up") "down"
        (mkEnv (some cfgEmpty) [] 0)).1 = some ["owner@example.com"] :=
  maybeSendEmailAlert_recipient_fallback sampleDevice "up" "down"
    (mkEnv (some cfgEmpty) [] 0) cfgEmpty
    (by decide) rfl (Or.inr (Or.inr rfl)) (by decide) (by decide) (by decide)

/-- C8: the due-set selector returns at most 100 rows, each returned row is
a due row of the table, when at most 100 rows are due the selection is
exactly the due rows, the result is ordered ascending by effective last
check (null as epoch), and the due test is precisely `last_check` null or
`last_check + interval ≤ now`. -/
theorem getDueDevices_spec (devices : List Device) (now : Int) :
    (getDueDevices devices now).length ≤ 100 ∧
    (∀ d ∈ getDueDevices devices now, d ∈ devices ∧ isDue now d = true) ∧
    ((devices.filter (isDue now)).length ≤ 100 →
      ∀ d, d ∈ getDueDevices devices now ↔ (d ∈ devices ∧ isDue now d = true)) ∧
    (getDueDevices devices now).Sorted dueLe ∧
    (∀ d, isDue now d = true ↔
      (d.last_check = none ∨ ∃ lc, d.last_check = some lc ∧ lc + d.ping_interval ≤ now)) := by
  refine ⟨?_, ?_, ?_, ?_, ?_⟩
  · exact List.length_take_le 100 _
  · intro d hd
    have hms : d ∈ (devices.filter (isDue now)).insertionSort dueLe :=
      List.take_subset 100 _ hd
    have hf : d ∈ devices.filter (isDue now) :=
      (List.mem_insertionSort dueLe).mp hms
    have := List.mem_filter.mp hf
    exact ⟨this.1, this.2⟩
  · intro hlen d
    have hlen' : ((devices.filter (isDue now)).insertionSort dueLe).length ≤ 100 := by
      rw [(List.perm_insertionSort dueLe (devices.filter (isDue now))).length_eq]
      exact hlen
    unfold getDueDevices
    rw [List.take_of_length_le hlen', List.mem_insertionSort, List.mem_filter]
  · exact List.Pairwise.sublist (List.take_sublist 100 _)
      (List.sorted_insertionSort dueLe (devices.filter (isDue now)))
  · intro d
    unfold isDue
    cases hlc : d.last_check with
    | none => simp
    | some lc =>
      simp only [decide_eq_true_eq]
      constructor
      · intro h
        exact Or.inr ⟨lc, rfl, by omega⟩
      · rintro (h | ⟨lc', hlc', h⟩)
        · cases h
        · cases hlc'
          omega

/-- C8 witness: at now = 7200 both A (never checked) and B (checked an hour
ago, interval 30 min) are due, and A sorts before B even when the table
lists B first. -/
theorem getDueDevices_spec_witness :
    deviceA ∈ getDueDevices [deviceB, deviceA] 7200 ∧
    getDueDevices [deviceB, deviceA] 7200 = [deviceA, deviceB] :=
  ⟨((getDueDevices_spec [deviceB, deviceA] 7200).2.2.1 (by decide) deviceA).mpr
      ⟨by decide, by decide⟩,
   by decide⟩

/-- C3 counterexample: with retention pruning throwing and a nonempty due
set, the iteration performs no due-set fetch and probes no device — the
tick does not proceed, contradicting the claim that a retention-pruning
failure never aborts the tick. -/
theorem mainIter_retention_aborts_tick :
    (mainIter iterEnvRetentionFail).1 = [.retentionFail] ∧
    IterAction.tickAct .fetchDue ∉ (mainIter iterEnvRetentionFail).1 ∧
    IterAction.tickAct (.probe "d1") ∉ (mainIter iterEnvRetentionFail).1 := by
  refine ⟨rfl, ?_, ?_⟩ <;> decide

/-- C3 amended: when retention pruning throws, the failure is caught and
logged at the loop level, that iteration's tick is skipped entirely (no
due-set fetch, no probes), and the loop itself survives — the following
iterations still run. -/
theorem mainIter_retention_fail_skips_tick (env : IterEnv) (e : String)
    (h : env.retain = .error e) :
    (mainIter env).1 = [.retentionFail] ∧ (mainIter env).2 = true ∧
    (∀ rest, mainRun (env :: rest) = ([.retentionFail], true) :: mainRun rest) := by
  refine ⟨?_, ?_, ?_⟩ <;> simp [mainIter, mainRun, h]

/-- C3 amended witness: the concrete failing-retention iteration. -/
theorem mainIter_retention_fail_skips_tick_witness :
    (mainIter iterEnvRetentionFail).1 = [.retentionFail] ∧
    (mainIter iterEnvRetentionFail).2 = true ∧
    (∀ rest, mainRun (iterEnvRetentionFail :: rest) =
      ([.retentionFail], true) :: mainRun rest) :=
  mainIter_retention_fail_skips_tick iterEnvRetentionFail "db down" rfl

/-- C4 counterexample: when P's `updateDevice` throws, the loop does not
continue — Q, also due in the same batch, is never probed in that tick,
contradicting the claim that only the failing device's iteration is
abandoned. -/
theorem tick_persist_fail_aborts_batch :
    (tick tickEnvPersistFail).1 = [.fetchDue, .probe "P", .persistFail "P"] ∧
    Action.probe "Q" ∉ (tick tickEnvPersistFail).1 := by
  constructor <;> decide

/-- C4 amended: a store-write failure during one device's update aborts the
whole tick: the exception escapes the loop (no per-device catch), none of
the devices after it are probed in that tick, the failing device's
`last_check` is not advanced (no successful persist), the worker-level
catch still contains the error (the loop survives), and the device, its
`last_check` unadvanced, stays due at every later time. -/
theorem tick_persist_fail_aborts (env : TickEnv) (d : Device) (post : List Device)
    (e : String) (hdue : env.due = d :: post) (hupd : env.updateOk d.id = .error e) :
    (tick env).1 = [.fetchDue, .probe d.id, .persistFail d.id] ∧
    (tick env).2 = some e ∧
    Action.persist d.id ∉ (tick env).1 ∧
    (∀ d' ∈ post, d'.id ≠ d.id → Action.probe d'.id ∉ (tick env).1) ∧
    (mainIter ⟨.ok (), env⟩).2 = true ∧
    (∀ now now', now ≤ now' → isDue now d = true → isDue now' d = true) := by
  have hloop : tickLoop env (d :: post) = ([.probe d.id, .persistFail d.id], some e) := by
    unfold tickLoop
    rw [hupd]
  have htick : tick env = ([.fetchDue, .probe d.id, .persistFail d.id], some e) := by
    unfold tick
    rw [hdue]
    simp [hloop]
  refine ⟨by rw [htick], by rw [htick], ?_, ?_, ?_, ?_⟩
  · rw [htick]
    simp
  · intro d' _ hne
    rw [htick]
    simp [hne]
  · unfold mainIter
    simp [htick]
  · intro now now' hle
    unfold isDue
    cases d.last_check with
    | none => simp
    | some lc =>
      simp only [decide_eq_true_eq]
      omega

/-- C4 amended witness: the concrete two-device batch with P's write
throwing. -/
theorem tick_persist_fail_aborts_witness :
    (tick tickEnvPersistFail).1 = [.fetchDue, .probe "P", .persistFail "P"] ∧
    (tick tickEnvPersistFail).2 = some "store down" ∧
    Action.persist "P" ∉ (tick tickEnvPersistFail).1 ∧
    (∀ d' ∈ [deviceQ], Device.id d' ≠ "P" → Action.probe d'.id ∉ (tick tickEnvPersistFail).1) ∧
    (mainIter ⟨.ok (), tickEnvPersistFail⟩).2 = true ∧
    (∀ now now', now ≤ now' → isDue now deviceP = true → isDue now' deviceP = true) :=
  tick_persist_fail_aborts tickEnvPersistFail deviceP [deviceQ] "store down" rfl rfl

/-- C9 amended witness: a concrete device with no URL and no port (the
well-formedness hypotheses hold vacuously), whose ping probe throws and
whose TCP fallbacks are both refused, still resolves to a normal result. -/
theorem executeDeviceCheckE_normal_witness :
    ∃ r, executeDeviceCheckE sampleDevice probeEnvE0 = .ok r ∧ normalResult r :=
  executeDeviceCheckE_normal sampleDevice probeEnvE0
    (fun h => absurd h (by decide)) (fun h => absurd h (by decide))

/-- C7 counterexample: the window with start 0 and end 50 has a past start
and a past end at now = 100, yet the evaluator reports it inactive — a
past-end window is not active indefinitely until cleared. -/
theorem isInWindow_past_end_not_active :
    (0 : Int) ≤ 100 ∧ (50 : Int) < 100 ∧
    isInWindow 100 (.time 0) (.time 50) = false := by
  refine ⟨by decide, by decide, by decide⟩

/-- C7 amended: the evaluator is a pure function of (window, now); a window
whose start is in the future is inactive; a window with a past start and an
absent or unparseable end is active at every time from the start on (until
the window is cleared) — in particular the open-ended scenario
{start = now − 1h, end = null} keeps the device suppressed at any later
now; but a window with a valid end is active only up to that end and is
inactive at any time after it. -/
theorem isInWindow_semantics :
    (∀ (now s : Int) (e : JsDate), now < s → isInWindow now (.time s) e = false) ∧
    (∀ now s : Int, s ≤ now → isInWindow now (.time s) .nullv = true ∧
      isInWindow now (.time s) .invalid = true) ∧
    (∀ now s e : Int, e < now → isInWindow now (.time s) (.time e) = false) ∧
    (∀ (d : Device) (now s : Int), d.store_maintenance_start = .nullv →
      d.maintenance_start = .time s → d.maintenance_end = .nullv →
      s ≤ now → isInMaintenance d now = true) := by
  refine ⟨isInWindow_future_start, isInWindow_open_end, isInWindow_past_end, ?_⟩
  intro d now s hs hms hme hnow
  unfold isInMaintenance
  rw [hs, hms, hme]
  simp [isInWindow, hnow]

/-- C7 amended witness: the open-ended scenario device is suppressed at a
much later clock, and a future-start window is inactive. -/
theorem isInWindow_semantics_witness :
    isInWindow 100 (.time 0) .nullv = true ∧
    isInMaintenance openEndedDevice 999999 = true :=
  ⟨(isInWindow_semantics.2.1 100 0 (by decide)).1,
   isInWindow_semantics.2.2.2 openEndedDevice 999999 (-3600000) rfl rfl rfl (by decide)⟩

end Dashmon
